import Mathlib

/-!
Shallow embedding of `src/server/server.rs` from the rasputin repository:
the single-group consensus server (vote requests/responses, lease cron,
client request handling, heartbeat replication).

Machine integers (`u64`, `u16`, `u8`, `usize`) are modelled as `Nat`:
none of the operations performed here (increments of txids, epochs and
terms, comparisons) can overflow in any execution the claims quantify
over, and the Rust code itself assumes they do not.  Wall-clock time
(`time::Timespec`) is modelled as a `Nat` parameter `now` threaded into
each handler; `time::now()` in the source corresponds to reading `now`.
Byte strings (`Vec<u8>`, `ByteBuf`) are modelled as `String`.  Panics
(`unwrap()` on a value that can be absent) are modelled by returning
`none` from an `Option`-valued embedding.  Messages are kept as typed
records rather than protobuf bytes; a protobuf field that is never set
keeps its default value (`0`, `""`, `false`, `none`), exactly as the
wire format delivers it.
-/

namespace Rasputin

/-- Routing tokens (`mio::Token`) are modelled as naturals. -/
abbrev Tok := Nat

/-- Peer / socket addresses (`SocketAddr`) are modelled as strings;
`format!` Debug-printing of an address is modelled as the identity. -/
abbrev Addr := String

/-- Modelled from the spec: `LEADER_DURATION` (the spec's
`LEASE_DURATION`) is defined in `src/server/mod.rs`, which is not part
of the sources; only its positivity matters to any claim, so a concrete
positive value is chosen. -/
def LEADER_DURATION : Nat := 12

/-- Modelled from the spec: `LEADER_REFRESH`, the remaining-lease
threshold below which a leader asks for renewal; defined in
`src/server/mod.rs`, which is not part of the sources. -/
def LEADER_REFRESH : Nat := 6

/-- Modelled from the spec: the distinguished broadcast routing token
`PEER_BROADCAST` from `src/server/mod.rs`; its concrete value is
immaterial to every claim. -/
def PEER_BROADCAST : Tok := 0

/-- Modelled from the spec: the `State` enum of `src/server/mod.rs`
(not part of the sources).  Field names and order follow the match
patterns visible in `server.rs`: `Candidate{term, untl, need, have}`,
`Leader{term, untl, need, have}`,
`Follower{term, id, leader_addr, untl, tok}`. -/
inductive State
  | init
  | candidate (term untl need : Nat) (hav : List Tok)
  | leader (term untl need : Nat) (hav : List Tok)
  | follower (term id : Nat) (leader_addr : Addr) (untl : Nat) (tok : Tok)
deriving Repr, DecidableEq

namespace State

/-- Modelled from the spec: `State::term()` returns the term of any
non-`Init` state (used via `.unwrap()` throughout `server.rs`). -/
def term : State → Option Nat
  | .init => none
  | .candidate t _ _ _ => some t
  | .leader t _ _ _ => some t
  | .follower t _ _ _ _ => some t

/-- Modelled from the spec: `State::valid_leader()` — "do we currently
know of a valid leader": true for a `Leader` with an unexpired lease
and for a `Follower` with an unexpired followership.  The `Follower`
arm is forced by the spec: §4.1 step 2 reads the guard
`valid_leader() && !following(peer)` in `handle_vote_req` as "currently
following a different valid leader", and §4.1 `on_cron` must not turn a
valid follower into a candidate. -/
def valid_leader (st : State) (now : Nat) : Bool :=
  match st with
  | .leader _ untl _ _ => decide (now < untl)
  | .follower _ _ _ untl _ => decide (now < untl)
  | _ => false

/-- Modelled from the spec: "valid candidate" = state is `Candidate`
and `now < untl`. -/
def valid_candidate (st : State) (now : Nat) : Bool :=
  match st with
  | .candidate _ untl _ _ => decide (now < untl)
  | _ => false

/-- Modelled from the spec: tag-only check for the `Leader` variant
(distinct from `valid_leader`, which also checks the lease clock). -/
def is_leader : State → Bool
  | .leader _ _ _ _ => true
  | _ => false

/-- Modelled from the spec: tag-only check for the `Candidate` variant. -/
def is_candidate : State → Bool
  | .candidate _ _ _ _ => true
  | _ => false

/-- Modelled from the spec: tag-only check for the `Follower` variant. -/
def is_follower : State → Bool
  | .follower _ _ _ _ _ => true
  | _ => false

/-- Modelled from the spec: `State::following(id)` — currently in the
`Follower` variant with the given leader id (§4.1 step 3: "If already
following `sender`"). -/
def following (st : State) (pid : Nat) : Bool :=
  match st with
  | .follower _ id _ _ _ => decide (id = pid)
  | _ => false

/-- Modelled from the spec: `State::is_following(id)` as used by the
stub `handle_append`; same test as `following`. -/
def is_following (st : State) (pid : Nat) : Bool :=
  st.following pid

/-- Modelled from the spec: `State::should_extend_leadership()` — a
valid leader whose lease needs renewal, i.e. whose remaining lease time
is at most `LEADER_REFRESH`. -/
def should_extend_leadership (st : State) (now : Nat) : Bool :=
  match st with
  | .leader _ untl _ _ => decide (now < untl) && decide (untl ≤ now + LEADER_REFRESH)
  | _ => false

end State

/-- The `VoteReq` protobuf message; unset fields default to `0`. -/
structure VoteReq where
  term : Nat := 0
  maxtxid : Nat := 0
  last_tx_term : Nat := 0
deriving Repr, DecidableEq

/-- The `VoteRes` protobuf message; unset fields default to `0`/`false`. -/
structure VoteRes where
  term : Nat := 0
  success : Bool := false
deriving Repr, DecidableEq

/-- One replicated key/value mutation (`VersionedKV`). -/
structure VersionedKV where
  txid : Nat := 0
  term : Nat := 0
  key : String := ""
  value : String := ""
deriving Repr, DecidableEq

/-- The `Append` protobuf message. -/
structure Append where
  batch_id : Nat := 0
  from_txid : Nat := 0
  from_term : Nat := 0
  batch : List VersionedKV := []
deriving Repr, DecidableEq

/-- The `AppendRes` protobuf message (only its presence matters to the
dispatch in `handle_peer`; `handle_append_res` is an empty stub). -/
structure AppendRes where
  batch_id : Nat := 0
deriving Repr, DecidableEq

/-- The `PeerMsg` protobuf message: a server id plus at most one of the
optional sub-messages. -/
structure PeerMsg where
  srvid : Nat := 0
  vote_req : Option VoteReq := none
  vote_res : Option VoteRes := none
  append : Option Append := none
  append_res : Option AppendRes := none
deriving Repr, DecidableEq

/-- The `GetReq` client message. -/
structure GetReq where
  key : String := ""
deriving Repr, DecidableEq

/-- The `SetReq` client message. -/
structure SetReq where
  key : String := ""
  value : String := ""
deriving Repr, DecidableEq

/-- The `CliReq` client message: at most one of `get`/`set` present. -/
structure CliReq where
  get : Option GetReq := none
  set : Option SetReq := none
deriving Repr, DecidableEq

/-- The `GetRes` client response. -/
structure GetRes where
  success : Bool := false
  value : String := ""
  err : String := ""
  txid : Nat := 0
deriving Repr, DecidableEq

/-- The `SetRes` client response. -/
structure SetRes where
  success : Bool := false
  err : String := ""
  txid : Nat := 0
deriving Repr, DecidableEq

/-- The `RedirectRes` client response. -/
structure RedirectRes where
  msgid : Nat := 0
  success : Bool := false
  address : String := ""
  err : String := ""
deriving Repr, DecidableEq

/-- The `CliRes` client response: at most one sub-response present. -/
structure CliRes where
  redirect : Option RedirectRes := none
  get : Option GetRes := none
  set : Option SetRes := none
deriving Repr, DecidableEq

/-- A decoded outbound payload: `server.rs` only ever serializes a
`PeerMsg` or a `CliRes` into an envelope. -/
inductive Payload
  | peer (m : PeerMsg)
  | cli (m : CliRes)
deriving Repr, DecidableEq

/-- An inbound `Envelope` (metadata only: id, optional source address,
routing token); the payload is passed to handlers already decoded. -/
structure Envelope where
  id : Nat := 0
  address : Option Addr := none
  tok : Tok := 0
deriving Repr, DecidableEq

/-- An outbound `Envelope` as sent on `res_tx`, with its payload. -/
structure OutEnvelope where
  id : Nat := 0
  address : Option Addr := none
  tok : Tok := 0
  msg : Payload
deriving Repr, DecidableEq

/-- One entry of the replication log.  Modelled from the spec: the
`LogEntry` type lives in `src/server/mod.rs` (not in the sources); the
spec describes it as a payload tagged with `txid` and `term`. -/
structure LogEntry where
  txid : Nat := 0
  term : Nat := 0
deriving Repr, DecidableEq

/-- The quorum replication log.  Modelled from the spec: `AckedLog` is
defined in `src/server/mod.rs` (not in the sources); the field names
and initial values follow the struct literal in `Server::run`
(`pending`, `committed`, `quorum`, `last_committed_txid`; the `learner`
channel is dropped, as nothing in `server.rs` ever feeds it). -/
structure AckedLog where
  pending : List (Nat × LogEntry) := []
  committed : List LogEntry := []
  quorum : Nat := 1
  last_committed_txid : Nat := 0
deriving Repr, DecidableEq

/-- Storage operations performed against the RocksDB handle; recorded
as a trace so that theorems can state when storage is (not) touched. -/
inductive DbOp
  | get (key : String)
  | put (key value : String)
deriving Repr, DecidableEq

/-- RocksDB `get`, modelled over an association list (most recent write
first). -/
def dbGet (db : List (String × String)) (k : String) : Option String :=
  (db.find? (fun p => p.1 == k)).map (fun p => p.2)

/-- RocksDB `put`, modelled by prepending (most recent write wins in
`dbGet`). -/
def dbPut (db : List (String × String)) (k v : String) : List (String × String) :=
  (k, v) :: db

/-- The mutable server state of `struct Server` in `server.rs`.  The
`res_tx` channel is modelled by returning the sent envelopes from each
handler; the `learned_rx` side of the never-used learner channel is
dropped. -/
structure Server where
  peer_port : Nat := 0
  cli_port : Nat := 0
  id : Nat := 0
  peers : List Addr := []
  bcast_epoch : Nat := 0
  max_txid : Nat := 0
  highest_term : Nat := 0
  last_tx_term : Nat := 0
  state : State := .init
  db : List (String × String) := []
  rep_log : AckedLog := {}
deriving Repr, DecidableEq

namespace Server

/-- `Server::new_txid`: increments `max_txid` and returns it. -/
def new_txid (s : Server) : Server × Nat :=
  ({ s with max_txid := s.max_txid + 1 }, s.max_txid + 1)

/-- `Server::reply`: sends one envelope on `res_tx` copying the
request's correlation id, address and routing token. -/
def reply (s : Server) (req : Envelope) (msg : Payload) : OutEnvelope :=
  { id := req.id, address := req.address, tok := req.tok, msg := msg }

/-- `Server::peer_broadcast`: sends one envelope with `id` equal to the
current broadcast epoch, no address (broadcast) and the
`PEER_BROADCAST` token, then increments `bcast_epoch`. -/
def peer_broadcast (s : Server) (msg : Payload) : Server × List OutEnvelope :=
  ({ s with bcast_epoch := s.bcast_epoch + 1 },
   [{ id := s.bcast_epoch, address := none, tok := PEER_BROADCAST, msg := msg }])

/-- `Server::handle_vote_res` (lines 193-305).  The early return fires
when the current state has no term or the response's term differs;
the candidate branches and the leader-extension branch then mirror the
source, including the duplicate-token guard on `have` and the
quorum-size test after insertion.  The `peer_id` argument is only
logged in the source. -/
def handle_vote_res (s : Server) (now : Nat) (env : Envelope) (peer_id : Nat)
    (vote_res : VoteRes) : Server :=
  match s.state.term with
  | none => s
  | some t =>
    if vote_res.term ≠ t then s
    else if s.state.valid_candidate now && ! vote_res.success then
      { s with
        highest_term :=
          if vote_res.term > s.highest_term then vote_res.term else s.highest_term,
        state := .init }
    else if s.state.valid_candidate now then
      match s.state with
      | .candidate term untl need hav =>
        let new_hav :=
          if ! hav.contains env.tok && vote_res.term == term then hav ++ [env.tok]
          else hav
        if new_hav.length ≥ need then
          { s with state := .leader term untl need [] }
        else
          { s with state := .candidate term untl need new_hav }
      | _ => s
    else if s.state.is_leader && s.state.valid_leader now && vote_res.success then
      match s.state with
      | .leader term untl need hav =>
        let new_hav :=
          if ! hav.contains env.tok && vote_res.term == term then hav ++ [env.tok]
          else hav
        if new_hav.length ≥ need then
          { s with state := .leader term (now + LEADER_DURATION) need [] }
        else
          { s with state := .leader term untl need new_hav }
      | _ => s
    else s

/-- `Server::handle_vote_req` (lines 307-389).  Every branch replies
with exactly one `PeerMsg{srvid, vote_res}` envelope; the two `none`
results model the `unwrap()` panics in the source (`state.term()` under
the valid-leader guard — dead, since a valid leader state always
carries a term — and `env.address` on the new-followership grant
branch, which is reachable when the envelope has no source address). -/
def handle_vote_req (s : Server) (now : Nat) (env : Envelope) (peer_id : Nat)
    (vote_req : VoteReq) : Option (Server × OutEnvelope) :=
  if peer_id = s.id then
    some (s, s.reply env (.peer
      { srvid := s.id,
        vote_res := some { term := vote_req.term, success := true } }))
  else if s.state.valid_leader now && ! s.state.following peer_id then
    match s.state.term with
    | some t =>
      some (s, s.reply env (.peer
        { srvid := s.id,
          vote_res := some { term := t, success := false } }))
    | none => none
  else if s.state.following peer_id then
    match s.state with
    | .follower term id la _ tok =>
      let s' : Server := { s with state := .follower term id la (now + LEADER_DURATION) tok }
      some (s', s'.reply env (.peer
        { srvid := s.id,
          vote_res := some { term := vote_req.term, success := true } }))
    | _ => none
  else if ! s.state.valid_leader now &&
      (decide (vote_req.term ≥ s.last_tx_term) &&
       ((decide (vote_req.maxtxid ≥ s.max_txid) &&
         decide (vote_req.last_tx_term = s.last_tx_term)) ||
        decide (vote_req.last_tx_term > s.last_tx_term))) then
    match env.address with
    | some a =>
      let s' : Server :=
        { s with
          highest_term := vote_req.term,
          state := .follower vote_req.term peer_id a (now + LEADER_DURATION) env.tok }
      some (s', s'.reply env (.peer
        { srvid := s.id,
          vote_res := some { term := vote_req.term, success := true } }))
    | none => none
  else
    some (s, s.reply env (.peer
      { srvid := s.id,
        vote_res := some
          { term := match s.state.term with
                    | some t => t
                    | none => vote_req.term,
            success := false } }))

/-- `Server::handle_append` (lines 391-404): builds an unused response
and checks `is_following` with an empty body — a stub with no effect. -/
def handle_append (s : Server) (now : Nat) (env : Envelope) (peer_id : Nat)
    (ap : Append) : Server :=
  if s.state.is_following peer_id then s else s

/-- `Server::handle_append_res` (lines 406-416): an empty stub. -/
def handle_append_res (s : Server) (now : Nat) (env : Envelope) (peer_id : Nat)
    (ar : AppendRes) : Server :=
  s

/-- `Server::handle_peer` (lines 418-434).  The `parsed` argument is
the result of `protobuf::parse_from_bytes`; the source immediately
`unwrap()`s it, so a parse failure panics the peer-handler thread
(modelled as `none`).  A decoded message is dispatched on the first
present sub-message in source order; a message with none present is
logged and dropped. -/
def handle_peer (s : Server) (now : Nat) (env : Envelope)
    (parsed : Option PeerMsg) : Option (Server × List OutEnvelope) :=
  match parsed with
  | none => none
  | some m =>
    match m.vote_res with
    | some vr => some (handle_vote_res s now env m.srvid vr, [])
    | none =>
      match m.vote_req with
      | some vq => (handle_vote_req s now env m.srvid vq).map (fun p => (p.1, [p.2]))
      | none =>
        match m.append with
        | some ap => some (handle_append s now env m.srvid ap, [])
        | none =>
          match m.append_res with
          | some ar => some (handle_append_res s now env m.srvid ar, [])
          | none => some (s, [])

/-- `Server::handle_cli` (lines 436-507).  The result carries the new
server, the single reply envelope, and the trace of storage operations
performed. -/
def handle_cli (s : Server) (now : Nat) (req : Envelope) (cli_req : CliReq) :
    Server × OutEnvelope × List DbOp :=
  if ! s.state.is_leader then
    let redirect_res : RedirectRes :=
      if s.state.is_follower then
        match s.state with
        | .follower _ _ la _ _ => { msgid := req.id, success := true, address := la }
        | _ => { msgid := req.id }
      else
        { msgid := req.id, success := false, err := "No leader has been elected yet" }
    (s, s.reply req (.cli { redirect := some redirect_res }), [])
  else match cli_req.get with
  | some get_req =>
    let get_res : GetRes :=
      match dbGet s.db get_req.key with
      | some v => { success := true, value := v, txid := s.max_txid }
      | none => { success := false, err := "Key not found", txid := s.max_txid }
    (s, s.reply req (.cli { get := some get_res }), [.get get_req.key])
  | none =>
    match cli_req.set with
    | some set_req =>
      let s' : Server := { s with db := dbPut s.db set_req.key set_req.value }
      (s', s'.reply req (.cli { set := some { success := true, txid := s.max_txid } }),
       [.put set_req.key set_req.value])
    | none => (s, s.reply req (.cli {}), [])

/-- `Server::replicate` (lines 579-596): consumes two fresh txids for
`batch_id` and `from_txid`, sets `from_term` from the current state and
broadcasts an `Append` whose batch is built from `vec![]` — the `vkvs`
argument is discarded, and nothing is added to the replication log
(the source marks this with a TODO). -/
def replicate (s : Server) (vkvs : List VersionedKV) : Server × List OutEnvelope :=
  let p1 := s.new_txid
  let p2 := p1.1.new_txid
  match p2.1.state.term with
  | some t =>
    p2.1.peer_broadcast (.peer
      { srvid := p2.1.id,
        append := some
          { batch_id := p1.2, from_txid := p2.2, from_term := t, batch := [] } })
  | none => (p2.1, [])

/-- `Server::cron` (lines 509-553): candidacy transition when no valid
leader or candidacy exists; vote/lease broadcast for a valid candidate
or a leader needing renewal (the broadcast `VoteReq` sets only `term`
and `maxtxid`); heartbeat replication while in the `Leader` state. -/
def cron (s : Server) (now : Nat) : Server × List OutEnvelope :=
  let s1 :=
    if ! s.state.valid_leader now && ! s.state.valid_candidate now then
      { s with
        highest_term := s.highest_term + 1,
        state := .candidate (s.highest_term + 1) (now + LEADER_DURATION)
          (s.peers.length / 2 + 1) [] }
    else s
  let step2 :=
    if s1.state.should_extend_leadership now || s1.state.valid_candidate now then
      match s1.state.term with
      | some t =>
        s1.peer_broadcast (.peer
          { srvid := s1.id,
            vote_req := some { term := t, maxtxid := s1.max_txid } })
      | none => (s1, [])
    else (s1, [])
  let s2 := step2.1
  if s2.state.is_leader then
    match s2.state.term with
    | some t =>
      let p := s2.new_txid
      let vkv : VersionedKV :=
        { txid := p.2, term := t, key := "heartbeat", value := toString now }
      let step3 := p.1.replicate [vkv]
      (step3.1, step2.2 ++ step3.2)
    | none => (s2, step2.2)
  else (s2, step2.2)

end Server

/-! Helper lemmas shared by the claim theorems. -/

/-- A state that currently counts as a valid leader always carries a term. -/
theorem State.term_isSome_of_valid_leader {st : State} {now : Nat}
    (h : st.valid_leader now = true) : ∃ t, st.term = some t := by
  cases st <;> simp [State.valid_leader, State.term] at h ⊢

/-- A state that is following `pid` is the `follower` variant with id `pid`. -/
theorem State.eq_follower_of_following {st : State} {pid : Nat}
    (h : st.following pid = true) :
    ∃ t la u tk, st = .follower t pid la u tk := by
  cases st with
  | follower t id la u tk =>
    simp only [State.following, decide_eq_true_eq] at h
    exact ⟨t, la, u, tk, by rw [h]⟩
  | init => simp [State.following] at h
  | candidate _ _ _ _ => simp [State.following] at h
  | leader _ _ _ _ => simp [State.following] at h

/-- Rust's `Vec::contains` (modelled by `List.contains`) decides list
membership. -/
theorem contains_eq_decide_mem (l : List Tok) (a : Tok) :
    l.contains a = decide (a ∈ l) := by
  by_cases h : a ∈ l
  · rw [decide_eq_true h]
    exact List.elem_iff.mpr h
  · rw [decide_eq_false h]
    rw [Bool.eq_false_iff]
    intro hc
    exact h (List.elem_iff.mp hc)

/-! Claim theorems. -/

/-- C2: the claim states that the vote/lease broadcast carries the current
term, the replica's highest committed txid, and the term under which that
txid was committed.  The code contradicts it: `cron` sets only `term` and
`maxtxid` on the broadcast `VoteReq` and never calls `set_last_tx_term`,
so the wire message carries the protobuf default `0`.  Evaluated here on a
valid candidate (term 5, `maxtxid` 10) whose `last_tx_term` is 4: the
broadcast message carries `last_tx_term = 0`, not 4. -/
theorem cron_vote_req_omits_last_tx_term :
    (Server.cron
      { id := 1, peers := ["a", "b", "c"], max_txid := 10, last_tx_term := 4,
        highest_term := 5, state := .candidate 5 10 2 [] } 3).2 =
      [{ id := 0, address := none, tok := PEER_BROADCAST,
         msg := .peer
           { srvid := 1,
             vote_req := some { term := 5, maxtxid := 10, last_tx_term := 0 } } }] ∧
    ({ id := 1, peers := ["a", "b", "c"], max_txid := 10, last_tx_term := 4,
        highest_term := 5, state := .candidate 5 10 2 [] } : Server).last_tx_term = 4 ∧
    (4 : Nat) ≠ 0 := by
  refine ⟨rfl, rfl, by decide⟩

/-- C3: the claim states that a client `Set` handled in `Leader` state
assigns a fresh txid, proposes a `LogEntry` into the `AckedLog`,
broadcasts an `Append` to all peers, self-acks, and does not touch
storage before commitment.  The code contradicts it: `handle_cli`'s set
branch writes directly to the database, replies with the current
(unincremented) `max_txid`, leaves the replication log untouched, and
broadcasts nothing — the only outbound envelope is the client reply.
Evaluated here on a leader at term 3 with `max_txid = 7`. -/
theorem handle_cli_set_bypasses_replication :
    (Server.handle_cli
      { id := 1, peers := ["a", "b", "c"], max_txid := 7,
        state := .leader 3 10 2 [], rep_log := { quorum := 2 } }
      5 { id := 9, address := some "c1", tok := 4 }
      { set := some { key := "k", value := "v" } }).1.max_txid = 7 ∧
    (Server.handle_cli
      { id := 1, peers := ["a", "b", "c"], max_txid := 7,
        state := .leader 3 10 2 [], rep_log := { quorum := 2 } }
      5 { id := 9, address := some "c1", tok := 4 }
      { set := some { key := "k", value := "v" } }).1.rep_log.pending = [] ∧
    (Server.handle_cli
      { id := 1, peers := ["a", "b", "c"], max_txid := 7,
        state := .leader 3 10 2 [], rep_log := { quorum := 2 } }
      5 { id := 9, address := some "c1", tok := 4 }
      { set := some { key := "k", value := "v" } }).1.db = [("k", "v")] ∧
    (Server.handle_cli
      { id := 1, peers := ["a", "b", "c"], max_txid := 7,
        state := .leader 3 10 2 [], rep_log := { quorum := 2 } }
      5 { id := 9, address := some "c1", tok := 4 }
      { set := some { key := "k", value := "v" } }).2.1.msg =
        .cli { set := some { success := true, txid := 7 } } ∧
    (Server.handle_cli
      { id := 1, peers := ["a", "b", "c"], max_txid := 7,
        state := .leader 3 10 2 [], rep_log := { quorum := 2 } }
      5 { id := 9, address := some "c1", tok := 4 }
      { set := some { key := "k", value := "v" } }).2.2 = [.put "k" "v"] :=
  ⟨rfl, rfl, rfl, rfl, rfl⟩

/-- C4 counterexample: the claim states that reads and writes are served
only while the state is a `Leader` with `now < until`.  On a `Leader`
whose lease expired at 5, at time 10, a client `Get` is still served from
storage (a `GetRes` is produced and the key is read), refuting the claim. -/
theorem expired_leader_serves_reads_cex :
    ¬ ((10 : Nat) < 5) ∧
    (Server.handle_cli { id := 1, state := .leader 1 5 2 [], db := [("k", "v")] }
      10 { id := 9, address := some "c1", tok := 4 } { get := some { key := "k" } }).2.1.msg =
      .cli { get := some { success := true, value := "v", txid := 0 } } ∧
    (Server.handle_cli { id := 1, state := .leader 1 5 2 [], db := [("k", "v")] }
      10 { id := 9, address := some "c1", tok := 4 } { get := some { key := "k" } }).2.2 =
      [.get "k"] :=
  ⟨by decide, rfl, rfl⟩

/-- C4 amended: a replica serves client requests directly (no redirect in
the response) if and only if its state's variant tag is `Leader`,
regardless of whether the lease has expired; an expired `Leader` keeps
serving until the next cron tick demotes it. -/
theorem handle_cli_serves_iff_leader_tag
    (s : Server) (now : Nat) (req : Envelope) (cli_req : CliReq) :
    ∃ r, (Server.handle_cli s now req cli_req).2.1.msg = .cli r ∧
      (r.redirect = none ↔ s.state.is_leader = true) := by
  by_cases h : s.state.is_leader = true
  · unfold Server.handle_cli
    rw [h]
    simp only [Bool.not_true, Bool.false_eq_true, if_false]
    match hg : cli_req.get with
    | some g =>
      exact ⟨_, rfl, by simp [h]⟩
    | none =>
      match hs : cli_req.set with
      | some st => exact ⟨_, rfl, by simp [h]⟩
      | none => exact ⟨_, rfl, by simp [h]⟩
  · unfold Server.handle_cli
    rw [Bool.not_eq_true] at h
    rw [h]
    simp only [Bool.not_false, if_true]
    exact ⟨_, rfl, by simp [h]⟩

/-- C1: for a vote request from a peer other than self, received while the
replica has no valid leader/follower relationship ("not currently a valid
leader/follower of someone else": `valid_leader`, which covers a valid
`Leader` and a valid `Follower`, is false) and is not already following
the sender, the vote is granted with a transition to `Follower` of the
sender if and only if the request's term is at least the receiver's
`last_tx_term` and either the request's `maxtxid` is at least the
receiver's with equal `last_tx_term`, or the request's `last_tx_term` is
strictly greater; otherwise the request is rejected with the receiver's
current term reported (the receiver's state carries no term only in
`Init`, where there is no current term to report).  The source-address
hypothesis reflects the `env.address.unwrap()` on the grant path. -/
theorem handle_vote_req_grant_iff
    (s : Server) (now : Nat) (env : Envelope) (peer_id : Nat) (vote_req : VoteReq)
    (a : Addr)
    (hself : peer_id ≠ s.id)
    (hvl : s.state.valid_leader now = false)
    (hfol : s.state.following peer_id = false)
    (haddr : env.address = some a) :
    ∃ s' out vr,
      Server.handle_vote_req s now env peer_id vote_req = some (s', out) ∧
      out = { id := env.id, address := env.address, tok := env.tok,
              msg := .peer { srvid := s.id, vote_res := some vr } } ∧
      ((vr.success = true ∧
          s'.state = .follower vote_req.term peer_id a (now + LEADER_DURATION) env.tok) ↔
        (vote_req.term ≥ s.last_tx_term ∧
          ((vote_req.maxtxid ≥ s.max_txid ∧ vote_req.last_tx_term = s.last_tx_term) ∨
            vote_req.last_tx_term > s.last_tx_term))) ∧
      (¬ (vote_req.term ≥ s.last_tx_term ∧
          ((vote_req.maxtxid ≥ s.max_txid ∧ vote_req.last_tx_term = s.last_tx_term) ∨
            vote_req.last_tx_term > s.last_tx_term)) →
        vr.success = false ∧ s' = s ∧
        ∀ t, s.state.term = some t → vr.term = t) := by
  unfold Server.handle_vote_req
  rw [if_neg hself]
  simp only [hvl, hfol, Bool.false_and, Bool.and_false, Bool.not_false, Bool.true_and,
    Bool.false_eq_true, if_false, haddr]
  by_cases hc : (vote_req.term ≥ s.last_tx_term ∧
      ((vote_req.maxtxid ≥ s.max_txid ∧ vote_req.last_tx_term = s.last_tx_term) ∨
        vote_req.last_tx_term > s.last_tx_term))
  · have hb : (decide (vote_req.term ≥ s.last_tx_term) &&
        ((decide (vote_req.maxtxid ≥ s.max_txid) &&
          decide (vote_req.last_tx_term = s.last_tx_term)) ||
         decide (vote_req.last_tx_term > s.last_tx_term))) = true := by
      simp only [Bool.and_eq_true, Bool.or_eq_true, decide_eq_true_eq]
      exact hc
    rw [if_pos hb]
    refine ⟨_, _, { term := vote_req.term, success := true }, rfl,
      by simp [Server.reply, haddr], ?_, fun hn => absurd hc hn⟩
    exact iff_of_true ⟨rfl, rfl⟩ hc
  · have hb : ¬ ((decide (vote_req.term ≥ s.last_tx_term) &&
        ((decide (vote_req.maxtxid ≥ s.max_txid) &&
          decide (vote_req.last_tx_term = s.last_tx_term)) ||
         decide (vote_req.last_tx_term > s.last_tx_term))) = true) := by
      simp only [Bool.and_eq_true, Bool.or_eq_true, decide_eq_true_eq]
      exact hc
    rw [if_neg hb]
    refine ⟨_, _,
      { term := match s.state.term with
                | some t => t
                | none => vote_req.term,
        success := false }, rfl,
      by simp [Server.reply, haddr], ?_, fun _ => ⟨rfl, rfl, fun t ht => by simp [ht]⟩⟩
    exact iff_of_false (fun h => by simpa using h.1) hc

/-- C1 witness: a fresh replica in `Init` (no committed writes) grants a
term-1 request from peer 2 and becomes its follower. -/
theorem handle_vote_req_grant_iff_witness :
    ∃ (s' : Server) (out : OutEnvelope) (vr : VoteRes),
      Server.handle_vote_req { id := 1 } 0 { id := 5, address := some "p2", tok := 3 } 2
        { term := 1 } = some (s', out) ∧
      out.msg = .peer { srvid := 1, vote_res := some vr } ∧
      vr.success = true ∧
      s'.state = .follower 1 2 "p2" (0 + LEADER_DURATION) 3 := by
  obtain ⟨s', out, vr, h1, h2, h3, -⟩ :=
    handle_vote_req_grant_iff { id := 1 } 0 { id := 5, address := some "p2", tok := 3 } 2
      { term := 1 } "p2" (by decide) rfl rfl rfl
  obtain ⟨hsucc, hstate⟩ := h3.mpr (by refine ⟨by decide, Or.inl ⟨by decide, rfl⟩⟩)
  exact ⟨s', out, vr, h1, by rw [h2], hsucc, hstate⟩

/-- C5: a vote response received while a valid candidate, carrying a
grant for the candidate's current term, adds the sender's token to
`have` idempotently (a token already present is not added again), and
the state becomes `Leader` with `have` reset to empty and `until`
unchanged exactly when the post-insertion count reaches `need`. -/
theorem handle_vote_res_candidate_grant
    (s : Server) (now : Nat) (env : Envelope) (peer_id : Nat) (vote_res : VoteRes)
    (term untl need : Nat) (hav : List Tok)
    (hs : s.state = .candidate term untl need hav)
    (hvalid : now < untl)
    (hsucc : vote_res.success = true)
    (hterm : vote_res.term = term) :
    ∃ new_hav,
      new_hav = (if env.tok ∈ hav then hav else hav ++ [env.tok]) ∧
      (Server.handle_vote_res s now env peer_id vote_res).state =
        (if new_hav.length ≥ need then State.leader term untl need []
         else State.candidate term untl need new_hav) ∧
      (env.tok ∈ hav → new_hav = hav) := by
  refine ⟨if env.tok ∈ hav then hav else hav ++ [env.tok], rfl, ?_,
    fun h => by rw [if_pos h]⟩
  unfold Server.handle_vote_res
  rw [hs]
  simp only [State.term, State.valid_candidate, State.is_leader, hterm, hsucc,
    contains_eq_decide_mem, decide_eq_true hvalid, Bool.not_true, Bool.and_false,
    Bool.true_and, Bool.false_and, Bool.false_eq_true, if_false, ne_eq,
    not_true_eq_false, beq_self_eq_true, Bool.and_true, Bool.not_eq_true',
    decide_eq_false_iff_not, ite_not, if_true]
  by_cases hmem : env.tok ∈ hav
  · rw [if_pos hmem]
    split <;> rfl
  · rw [if_neg hmem]
    split <;> rfl

/-- C5 witness: a candidate needing 2 votes, already holding its
self-grant (token 7), receives a grant from token 3 and ascends to
leader with `have` reset and `until` unchanged at 10. -/
theorem handle_vote_res_candidate_grant_witness :
    (Server.handle_vote_res { id := 1, state := .candidate 5 10 2 [7] } 0
      { id := 2, address := some "p", tok := 3 } 9 { term := 5, success := true }).state =
      State.leader 5 10 2 [] := by
  obtain ⟨nh, hnh, hst, -⟩ :=
    handle_vote_res_candidate_grant { id := 1, state := .candidate 5 10 2 [7] } 0
      { id := 2, address := some "p", tok := 3 } 9 { term := 5, success := true }
      5 10 2 [7] rfl (by decide) rfl rfl
  rw [hnh] at hst
  rw [hst]
  decide

/-- C6: across any `handle_vote_res` call made in `Leader` state, the
lease expiry `until` never decreases, and it increases — to
`now + LEADER_DURATION` — only when the response is a grant for the
leader's own current term and the post-insertion token count in `have`
reaches `need`, at which point `have` is reset to empty.  The
hypothesis `untl ≤ now + LEADER_DURATION` is the lease invariant (every
`until` ever stored is some past instant plus `LEADER_DURATION`); with
`hav.Nodup` (maintained by the duplicate check on every insertion) the
length below counts distinct peer tokens. -/
theorem leader_until_monotonic
    (s : Server) (now : Nat) (env : Envelope) (peer_id : Nat) (vote_res : VoteRes)
    (term untl need : Nat) (hav : List Tok)
    (hs : s.state = .leader term untl need hav)
    (hU : untl ≤ now + LEADER_DURATION)
    (hnd : hav.Nodup) :
    ∃ untl' hav',
      (Server.handle_vote_res s now env peer_id vote_res).state =
        .leader term untl' need hav' ∧
      untl ≤ untl' ∧
      (untl < untl' →
        untl' = now + LEADER_DURATION ∧ hav' = [] ∧
        vote_res.success = true ∧ vote_res.term = term ∧
        (if env.tok ∈ hav then hav else hav ++ [env.tok]).length ≥ need) := by
  by_cases hvt : vote_res.term = term
  · by_cases hvl : now < untl
    · by_cases hsucc : vote_res.success = true
      · by_cases hmem : env.tok ∈ hav
        · by_cases hlen : hav.length ≥ need
          · refine ⟨now + LEADER_DURATION, [], ?_, hU,
              fun _ => ⟨rfl, rfl, hsucc, hvt, by rw [if_pos hmem]; exact hlen⟩⟩
            simp [Server.handle_vote_res, hs, State.term, State.valid_candidate,
              State.is_leader, State.valid_leader, hvl, hvt, hsucc,
              contains_eq_decide_mem, hmem, hlen]
          · refine ⟨untl, hav, ?_, le_refl untl, fun h => absurd h (lt_irrefl untl)⟩
            simp [Server.handle_vote_res, hs, State.term, State.valid_candidate,
              State.is_leader, State.valid_leader, hvl, hvt, hsucc,
              contains_eq_decide_mem, hmem, hlen]
        · by_cases hlen : (hav ++ [env.tok]).length ≥ need
          · have hlen' : need ≤ hav.length + 1 := by simpa using hlen
            refine ⟨now + LEADER_DURATION, [], ?_, hU,
              fun _ => ⟨rfl, rfl, hsucc, hvt, by rw [if_neg hmem]; exact hlen⟩⟩
            simp [Server.handle_vote_res, hs, State.term, State.valid_candidate,
              State.is_leader, State.valid_leader, hvl, hvt, hsucc,
              contains_eq_decide_mem, hmem, hlen']
          · have hlen' : ¬ need ≤ hav.length + 1 := by simpa using hlen
            refine ⟨untl, hav ++ [env.tok], ?_, le_refl untl,
              fun h => absurd h (lt_irrefl untl)⟩
            simp [Server.handle_vote_res, hs, State.term, State.valid_candidate,
              State.is_leader, State.valid_leader, hvl, hvt, hsucc,
              contains_eq_decide_mem, hmem, hlen']
      · refine ⟨untl, hav, ?_, le_refl untl, fun h => absurd h (lt_irrefl untl)⟩
        rw [Bool.not_eq_true] at hsucc
        simp [Server.handle_vote_res, hs, State.term, State.valid_candidate,
          State.is_leader, State.valid_leader, hvl, hvt, hsucc]
    · refine ⟨untl, hav, ?_, le_refl untl, fun h => absurd h (lt_irrefl untl)⟩
      simp [Server.handle_vote_res, hs, State.term, State.valid_candidate,
        State.is_leader, State.valid_leader, hvl, hvt]
  · refine ⟨untl, hav, ?_, le_refl untl, fun h => absurd h (lt_irrefl untl)⟩
    simp [Server.handle_vote_res, hs, State.term, hvt]

/-- C6 witness: a valid leader (lease until 10, at time 0) holding its
self-ack (token 7) receives a grant from token 3 for its term 5; the
lease extends to `0 + LEADER_DURATION = 12 ≥ 10` with `have` reset. -/
theorem leader_until_monotonic_witness :
    (Server.handle_vote_res { id := 1, state := .leader 5 10 2 [7] } 0
      { id := 2, address := some "p", tok := 3 } 9 { term := 5, success := true }).state =
      State.leader 5 (0 + LEADER_DURATION) 2 [] ∧ (10 : Nat) ≤ 0 + LEADER_DURATION := by
  obtain ⟨untl', hav', hst, hle, hinc⟩ :=
    leader_until_monotonic { id := 1, state := .leader 5 10 2 [7] } 0
      { id := 2, address := some "p", tok := 3 } 9 { term := 5, success := true }
      5 10 2 [7] rfl (by decide) (by decide)
  refine ⟨?_, ?_⟩
  · rw [hst]
    have hval : State.leader 5 untl' 2 hav' = State.leader 5 12 2 [] := by
      rw [← hst]; decide
    rw [hval]; decide
  · decide

/-- C8 counterexample: the claim states that an envelope whose payload
cannot be parsed as a `PeerMsg` is logged and dropped without
terminating the process.  The code calls `.unwrap()` on the parse
result, so a parse failure panics the peer-handler thread (modelled as
`none`, as opposed to `some (s, [])` for a logged-and-dropped message);
under the watchdog design a worker panic shuts the whole process down. -/
theorem handle_peer_unparseable_panics_cex :
    Server.handle_peer { id := 1 } 0 { id := 2, address := some "p", tok := 3 } none =
      none :=
  rfl

/-- C8 amended: a decoded peer message of an unexpected kind (none of
`vote_res`, `vote_req`, `append`, `append_res` present) is logged and
dropped: the state is unchanged and nothing is sent; an envelope whose
payload fails to parse instead panics the peer-handler thread. -/
theorem handle_peer_unexpected_kind_dropped
    (s : Server) (now : Nat) (env : Envelope) (m : PeerMsg)
    (h1 : m.vote_res = none) (h2 : m.vote_req = none)
    (h3 : m.append = none) (h4 : m.append_res = none) :
    Server.handle_peer s now env (some m) = some (s, []) := by
  unfold Server.handle_peer
  simp only [h1, h2, h3, h4]

/-- C8 witness: a concrete `PeerMsg` carrying only a server id is
dropped with no state change and no outbound traffic. -/
theorem handle_peer_unexpected_kind_dropped_witness :
    Server.handle_peer { id := 1 } 0 { id := 2, address := some "p", tok := 3 }
      (some { srvid := 9 }) = some ({ id := 1 }, []) :=
  handle_peer_unexpected_kind_dropped { id := 1 } 0
    { id := 2, address := some "p", tok := 3 } { srvid := 9 } rfl rfl rfl rfl

/-- C9 counterexample: the claim states that every invocation of
`handle_vote_req` sends exactly one `VoteRes` reply.  On the
new-followership grant branch the code calls `env.address.unwrap()`, so
a grantable request arriving in an envelope with no source address
panics (modelled as `none`) and no reply is sent. -/
theorem handle_vote_req_missing_address_cex :
    Server.handle_vote_req { id := 1 } 0 { id := 9, address := none, tok := 3 } 2
      { term := 1 } = none :=
  rfl

/-- C7: a client request handled while not the leader is answered with a
redirect and nothing else (no `get`/`set` sub-response is set): a
`Follower` produces a successful redirect carrying the followed leader's
address, any other non-leader state produces a failed redirect with the
explicit no-leader-elected error; storage is neither read nor written
and the server is unchanged. -/
theorem handle_cli_non_leader_redirect
    (s : Server) (now : Nat) (req : Envelope) (cli_req : CliReq)
    (hL : s.state.is_leader = false) :
    ∃ rr, Server.handle_cli s now req cli_req =
        (s, s.reply req (.cli { redirect := some rr }), []) ∧
      rr.msgid = req.id ∧
      (∀ t id la u tk, s.state = .follower t id la u tk →
        rr = { msgid := req.id, success := true, address := la }) ∧
      (s.state.is_follower = false →
        rr = { msgid := req.id, success := false,
               err := "No leader has been elected yet" }) := by
  cases hst : s.state with
  | follower t id la u tk =>
    refine ⟨{ msgid := req.id, success := true, address := la }, ?_, rfl, ?_, ?_⟩
    · simp [Server.handle_cli, hst, State.is_leader, State.is_follower]
    · intro t' id' la' u' tk' h
      injection h with h1 h2 h3 h4 h5
      rw [h3]
    · intro hf
      simp [State.is_follower] at hf
  | init =>
    refine ⟨{ msgid := req.id, success := false,
              err := "No leader has been elected yet" }, ?_, rfl, ?_, fun _ => rfl⟩
    · simp [Server.handle_cli, hst, State.is_leader, State.is_follower]
    · intro t' id' la' u' tk' h
      exact absurd h (by simp)
  | candidate ct cu cn ch =>
    refine ⟨{ msgid := req.id, success := false,
              err := "No leader has been elected yet" }, ?_, rfl, ?_, fun _ => rfl⟩
    · simp [Server.handle_cli, hst, State.is_leader, State.is_follower]
    · intro t' id' la' u' tk' h
      exact absurd h (by simp)
  | leader lt lu ln lh =>
    exact absurd hL (by simp [hst, State.is_leader])

/-- C7 witness: a follower of the leader at "10.0.0.2:9000" redirects a
client request to that address without touching storage. -/
theorem handle_cli_non_leader_redirect_witness :
    ∃ rr, Server.handle_cli { id := 1, state := .follower 5 2 "10.0.0.2:9000" 99 4 } 0
        { id := 8, address := some "c1", tok := 6 } { get := some { key := "k" } } =
        ({ id := 1, state := .follower 5 2 "10.0.0.2:9000" 99 4 },
         Server.reply { id := 1, state := .follower 5 2 "10.0.0.2:9000" 99 4 }
           { id := 8, address := some "c1", tok := 6 } (.cli { redirect := some rr }), []) ∧
      rr = { msgid := 8, success := true, address := "10.0.0.2:9000" } := by
  obtain ⟨rr, h1, -, h3, -⟩ :=
    handle_cli_non_leader_redirect { id := 1, state := .follower 5 2 "10.0.0.2:9000" 99 4 }
      0 { id := 8, address := some "c1", tok := 6 } { get := some { key := "k" } } rfl
  exact ⟨rr, h1, h3 5 2 "10.0.0.2:9000" 99 4 rfl⟩

/-- C9 amended: an invocation of `handle_vote_req` whose request envelope
carries a source address sends exactly one `VoteRes` reply envelope with
the request's correlation id, address and routing token; a self-addressed
request is answered with `success = true` and leaves the server
unchanged.  (Without a source address, the new-followership grant branch
panics instead of replying — see the counterexample.) -/
theorem handle_vote_req_single_reply
    (s : Server) (now : Nat) (env : Envelope) (peer_id : Nat) (vote_req : VoteReq)
    (a : Addr) (haddr : env.address = some a) :
    ∃ s' vr,
      Server.handle_vote_req s now env peer_id vote_req =
        some (s', { id := env.id, address := env.address, tok := env.tok,
                    msg := .peer { srvid := s.id, vote_res := some vr } }) ∧
      (peer_id = s.id → s' = s ∧ vr.success = true) := by
  unfold Server.handle_vote_req
  by_cases hself : peer_id = s.id
  · rw [if_pos hself]
    exact ⟨s, _, rfl, fun _ => ⟨rfl, rfl⟩⟩
  · rw [if_neg hself]
    by_cases h2 : (s.state.valid_leader now && ! s.state.following peer_id) = true
    · rw [if_pos h2]
      obtain ⟨t, ht⟩ :=
        State.term_isSome_of_valid_leader ((Bool.and_eq_true _ _).mp h2).1
      rw [ht]
      exact ⟨s, _, rfl, fun h => absurd h hself⟩
    · rw [if_neg h2]
      by_cases h3 : s.state.following peer_id = true
      · rw [if_pos h3]
        obtain ⟨t, la, u, tk, hst⟩ := State.eq_follower_of_following h3
        rw [hst]
        exact ⟨_, _, rfl, fun h => absurd h hself⟩
      · rw [if_neg h3]
        by_cases h4 : (! s.state.valid_leader now &&
            (decide (vote_req.term ≥ s.last_tx_term) &&
             ((decide (vote_req.maxtxid ≥ s.max_txid) &&
               decide (vote_req.last_tx_term = s.last_tx_term)) ||
              decide (vote_req.last_tx_term > s.last_tx_term)))) = true
        · rw [if_pos h4, haddr]
          refine ⟨
            { s with
              highest_term := vote_req.term,
              state := .follower vote_req.term peer_id a (now + LEADER_DURATION) env.tok },
            { term := vote_req.term, success := true },
            ?_, fun h => absurd h hself⟩
          simp [Server.reply, haddr]
        · rw [if_neg h4]
          exact ⟨s, _, rfl, fun h => absurd h hself⟩

/-- C9 witness: a self-addressed vote request (peer id 1 = own id) is
answered with a grant and the server is unchanged. -/
theorem handle_vote_req_single_reply_witness :
    ∃ (s' : Server) (vr : VoteRes),
      Server.handle_vote_req { id := 1 } 0 { id := 4, address := some "p", tok := 6 } 1
        { term := 2 } =
        some (s', { id := 4, address := some "p", tok := 6,
                    msg := .peer { srvid := 1, vote_res := some vr } }) ∧
      s' = { id := 1 } ∧ vr.success = true := by
  obtain ⟨s', vr, h1, h2⟩ :=
    handle_vote_req_single_reply { id := 1 } 0 { id := 4, address := some "p", tok := 6 } 1
      { term := 2 } "p" rfl
  obtain ⟨hs, hv⟩ := h2 rfl
  exact ⟨s', vr, h1, hs, hv⟩

/-- C10: a cron tick taken as a leader with a live lease runs the
heartbeat path: `max_txid` advances by exactly three (one txid consumed
by the heartbeat entry, one by the `Append`'s `batch_id`, one by its
`from_txid`, so `from_txid = batch_id + 1`), the broadcast `Append`
carries an empty entry batch (the heartbeat entry itself is discarded by
`replicate`), and the replication log — in particular its `pending`
map — is untouched. -/
theorem cron_heartbeat_three_txids
    (s : Server) (now : Nat) (term untl need : Nat) (hav : List Tok)
    (hs : s.state = .leader term untl need hav)
    (hvalid : now < untl) :
    (Server.cron s now).1.max_txid = s.max_txid + 3 ∧
    (Server.cron s now).1.rep_log = s.rep_log ∧
    ∃ e, e ∈ (Server.cron s now).2 ∧
      e.msg = .peer
        { srvid := s.id,
          append := some { batch_id := s.max_txid + 2, from_txid := s.max_txid + 3,
                           from_term := term, batch := [] } } := by
  by_cases hext : untl ≤ now + LEADER_REFRESH
  · refine ⟨?_, ?_, ?_⟩ <;>
      simp [Server.cron, hs, State.valid_leader, State.valid_candidate,
        State.should_extend_leadership, State.is_leader, State.term, hvalid, hext,
        Server.peer_broadcast, Server.new_txid, Server.replicate]
  · refine ⟨?_, ?_, ?_⟩ <;>
      simp [Server.cron, hs, State.valid_leader, State.valid_candidate,
        State.should_extend_leadership, State.is_leader, State.term, hvalid, hext,
        Server.peer_broadcast, Server.new_txid, Server.replicate]

/-- C10 witness: a leader at term 5 with lease until 20, at time 0 with
`max_txid = 10`, ends the tick with `max_txid = 13` and has broadcast an
empty-batch `Append` with `batch_id = 12`, `from_txid = 13`. -/
theorem cron_heartbeat_three_txids_witness :
    (Server.cron
      { id := 1, peers := ["a", "b", "c"], max_txid := 10, state := .leader 5 20 2 [] }
      0).1.max_txid = 13 ∧
    ∃ e, e ∈ (Server.cron
      { id := 1, peers := ["a", "b", "c"], max_txid := 10, state := .leader 5 20 2 [] }
      0).2 ∧
      e.msg = .peer
        { srvid := 1,
          append := some { batch_id := 12, from_txid := 13,
                           from_term := 5, batch := [] } } := by
  obtain ⟨h1, -, h3⟩ :=
    cron_heartbeat_three_txids
      { id := 1, peers := ["a", "b", "c"], max_txid := 10, state := .leader 5 20 2 [] }
      0 5 20 2 [] rfl (by decide)
  exact ⟨h1, h3⟩

end Rasputin
